import Mathlib

/-!
Verification development for the image-OCR MCP server
(`examples/servers/image-mcp/mcp_image_ocr`): a shallow embedding of the
resource lifecycle manager (`resource_manager.py`), its pluggable source and
extraction providers (`implementations.py`, `factories.py`), and the protocol
dispatch surface (`server.py`), together with theorems settling the spec's
claims about ingestion, extraction, resource reading and prompt dispatch.

Modelling conventions:
- Python exceptions are `Except String` values carrying the exception text.
- Byte strings are `List Nat`; `datetime.now()`, `uuid4()` and all provider
  I/O outcomes (HTTP responses, file contents, OCR engine results) enter as
  explicit parameters, so every definition is a pure function of its inputs.
- Python dicts used as ordered maps are association lists; insertion appends,
  update replaces in place, preserving iteration order.
- Float confidence scores are modelled as rationals.
-/

/-- Whitespace characters stripped by Python's `str.strip()`. -/
def isPySpace (c : Char) : Bool :=
  c = ' ' || c = '\t' || c = '\n' || c = '\r' || c = '\x0b' || c = '\x0c'

/-- Strip leading and trailing Python whitespace from a character list. -/
def pyStripList (l : List Char) : List Char :=
  ((l.dropWhile isPySpace).reverse.dropWhile isPySpace).reverse

/-- Python's `str.strip()`. -/
def pyStrip (s : String) : String := String.mk (pyStripList s.toList)

/-- Python truthiness of a possibly-absent string (`None` and `""` are falsy). -/
def strTruthy : Option String → Bool
  | some t => t ≠ ""
  | none => false

/-- Python `repr`-style rendering of an optional string inside an f-string:
`None` prints as `None`, a present string prints as itself. -/
def pyOptShow : Option String → String
  | some t => t
  | none => "None"

/-- If `pre` is a leading segment of `s`, return the remainder of `s`. -/
def dropSeq : List Char → List Char → Option (List Char)
  | [], s => some s
  | _ :: _, [] => none
  | c :: cs, d :: ds => if c = d then dropSeq cs ds else none

/-- Python's `str.startswith`. -/
def pyStartsWith (s pre : String) : Bool := (dropSeq pre.toList s.toList).isSome

/-- Fuel-driven worker for Python's `str.split(sep)`: scans left to right,
splitting at each non-overlapping occurrence of `c0 :: sep0`. The fuel is
instantiated with the input length, which always suffices. -/
def splitCharsF (c0 : Char) (sep0 : List Char) : Nat → List Char → List Char → List (List Char)
  | _, cur, [] => [cur.reverse]
  | 0, cur, s => [cur.reverse ++ s]
  | fuel + 1, cur, c :: rest =>
    if c = c0 then
      match dropSeq sep0 rest with
      | some after => cur.reverse :: splitCharsF c0 sep0 fuel [] after
      | none => splitCharsF c0 sep0 fuel (c :: cur) rest
    else splitCharsF c0 sep0 fuel (c :: cur) rest

/-- Python's `str.split(sep)` for a non-empty separator. -/
def pySplit (s sep : String) : List String :=
  match sep.toList with
  | [] => [s]
  | c0 :: sep0 => (splitCharsF c0 sep0 s.toList.length [] s.toList).map (fun l => String.mk l)

/-- Look up a key in an association list (Python `dict[key]` / `key in dict`). -/
def alookup {α : Type} (l : List (String × α)) (k : String) : Option α :=
  (l.find? (fun p => p.1 == k)).map (fun p => p.2)

/-- Replace the value stored at a key, keeping insertion order (Python
in-place `dict[key] = v` for an existing key). -/
def aupdate {α : Type} (l : List (String × α)) (k : String) (v : α) : List (String × α) :=
  l.map (fun p => if p.1 == k then (k, v) else p)

/-- Alphabet used by standard base64. -/
def b64Alphabet : List Char :=
  "ABCDEFGHIJKLMNOPQRSTUVWXYZabcdefghijklmnopqrstuvwxyz0123456789+/".toList

/-- Character for a 6-bit group. -/
def b64Char (n : Nat) : Char := b64Alphabet.getD n '='

/-- RFC 4648 base64 of a byte sequence, as produced by Python's
`base64.b64encode(...).decode("utf-8")`. -/
def base64Encode : List Nat → String
  | [] => ""
  | [a] =>
    String.mk [b64Char (a / 4), b64Char (a % 4 * 16), '=', '=']
  | [a, b] =>
    String.mk [b64Char (a / 4), b64Char (a % 4 * 16 + b / 16), b64Char (b % 16 * 4), '=']
  | a :: b :: c :: rest =>
    String.mk [b64Char (a / 4), b64Char (a % 4 * 16 + b / 16),
               b64Char (b % 16 * 4 + c / 64), b64Char (c % 64)] ++ base64Encode rest

/-- Two-decimal rendering of a rational, standing in for Python's `f"{x:.2f}"`
on the float confidence score. -/
def fmt2 (q : Rat) : String :=
  let n : Int := round (q * 100)
  let sign := if n < 0 then "-" else ""
  let a := n.natAbs
  sign ++ toString (a / 100) ++ "." ++ (if a % 100 < 10 then "0" else "") ++ toString (a % 100)

/-- Metadata dictionary produced by an image source (`implementations.py`):
origin URI, declared content type, byte size, and the provider's timestamp
field (`download_time` for the web source, `last_modified` for the local one). -/
structure SourceMeta where
  uri : String
  content_type : String
  size : Nat
  time_info : String
  deriving DecidableEq, Repr

/-- Resource record as stored in `ResourceManager.resources`
(`resource_manager.py`): the two extraction bookkeeping fields
`text_extraction_time` and `text_extractor` are absent until the first
extraction attempt, modelled as `Option`. -/
structure ResourceRecord where
  rid : String
  rtype : String
  uri : String
  size : Nat
  created_at : String
  cache_path : String
  text_extracted : Bool
  extracted_text : Option String
  confidence_score : Option Rat
  text_extraction_time : Option String
  text_extractor : Option String
  deriving DecidableEq, Repr

/-- State owned by `ResourceManager`: the cache directory path, the in-memory
resource index (insertion-ordered), and the cache directory's files, modelled
as a map from path to byte contents. -/
structure ResourceManager where
  cache_dir : String
  resources : List (String × ResourceRecord)
  cache_files : List (String × List Nat)
  deriving DecidableEq, Repr

/-- Allow-list `SUPPORTED_FORMATS` from `implementations.py`. -/
def SUPPORTED_FORMATS : List String := ["image/jpeg", "image/jpg", "image/png"]

/-- Python truthiness of the `self.data` field of an image source
(`None` and `b""` are falsy). -/
def bytesTruthy : Option (List Nat) → Bool
  | some bs => !bs.isEmpty
  | none => false

/-- Outcome of the `httpx` GET performed by `WebImageSource.download`:
either the connection itself fails, or a response arrives with a status
(`raise_for_status` message when not OK), a `content-type` header and a body. -/
inductive HttpOutcome
  | connError (msg : String)
  | response (status_ok : Bool) (status_msg : String) (content_type : String) (content : List Nat)
  deriving DecidableEq, Repr

/-- Instance state of `WebImageSource`: the URL plus the `data`,
`content_type` and `_metadata` attributes, all `None` on construction. -/
structure WebImageSource where
  url : String
  data : Option (List Nat)
  content_type : Option String
  meta : Option SourceMeta
  deriving DecidableEq, Repr

/-- Fresh `WebImageSource(url)`. -/
def WebImageSource.create (url : String) : WebImageSource := ⟨url, none, none, none⟩

/-- `WebImageSource.download` from `implementations.py`. Mirrors the source
order: cached-data short circuit, GET, `raise_for_status`, content-type
assignment and allow-list check, body assignment, size check, metadata
assignment. Note that `self.data` is assigned before the size check. -/
def WebImageSource.download (s : WebImageSource) (net : HttpOutcome) (maxSize : Nat)
    (now : String) : WebImageSource × Except String (List Nat) :=
  if bytesTruthy s.data then (s, .ok (s.data.getD [])) else
  match net with
  | .connError msg => (s, .error msg)
  | .response ok statusMsg ctype content =>
    if !ok then (s, .error statusMsg)
    else
      let s1 := { s with content_type := some ctype }
      if ¬ SUPPORTED_FORMATS.contains ctype then
        (s1, .error ("Unsupported image format: " ++ ctype))
      else
        let s2 := { s1 with data := some content }
        if content.length > maxSize then
          (s2, .error ("Image too large: " ++ toString content.length ++ " bytes"))
        else
          ({ s2 with meta := some ⟨s.url, ctype, content.length, now⟩ }, .ok content)

/-- `WebImageSource.get_metadata`: raises unless `_metadata` was recorded. -/
def WebImageSource.get_metadata (s : WebImageSource) : Except String SourceMeta :=
  match s.meta with
  | none => .error "Image not yet downloaded"
  | some md => .ok md

/-- Instance state of `LocalImageSource`. -/
structure LocalImageSource where
  path : String
  data : Option (List Nat)
  meta : Option SourceMeta
  deriving DecidableEq, Repr

/-- Fresh `LocalImageSource(path)`. -/
def LocalImageSource.create (path : String) : LocalImageSource := ⟨path, none, none⟩

/-- View of the local file system at the source's path: existence, the
content type guessed by `mimetypes.guess_type`, the file bytes and mtime. -/
structure LocalFile where
  fileExists : Bool
  guessed_type : Option String
  content : List Nat
  mtime : String
  deriving DecidableEq, Repr

/-- `LocalImageSource.download` from `implementations.py`: cached-data short
circuit, existence check, content-type guess and allow-list check (a `None`
guess is not in the allow-list), read, size check after `self.data` is
assigned, metadata assignment. -/
def LocalImageSource.download (s : LocalImageSource) (fs : LocalFile) (maxSize : Nat) :
    LocalImageSource × Except String (List Nat) :=
  if bytesTruthy s.data then (s, .ok (s.data.getD [])) else
  if ¬ fs.fileExists then (s, .error ("Image file not found: " ++ s.path))
  else
    let ctOk := match fs.guessed_type with
      | some ct => SUPPORTED_FORMATS.contains ct
      | none => false
    if !ctOk then (s, .error ("Unsupported image format: " ++ pyOptShow fs.guessed_type))
    else
      let s1 := { s with data := some fs.content }
      if fs.content.length > maxSize then
        (s1, .error ("Image too large: " ++ toString fs.content.length ++ " bytes"))
      else
        ({ s1 with meta := some ⟨"file://" ++ s.path, fs.guessed_type.getD "", fs.content.length, fs.mtime⟩ },
         .ok fs.content)

/-- `LocalImageSource.get_metadata`. -/
def LocalImageSource.get_metadata (s : LocalImageSource) : Except String SourceMeta :=
  match s.meta with
  | none => .error "Image not yet read"
  | some md => .ok md

/-- The `download` / `get_metadata` pair as invoked by the resource manager on
a web source: run the download, then fetch metadata on success. -/
def web_fetch (src : WebImageSource) (net : HttpOutcome) (maxSize : Nat) (now : String) :
    WebImageSource × Except String (List Nat × SourceMeta) :=
  let (s1, r) := src.download net maxSize now
  match r with
  | .error e => (s1, .error e)
  | .ok bs =>
    match s1.get_metadata with
    | .error e => (s1, .error e)
    | .ok md => (s1, .ok (bs, md))

/-- The `download` / `get_metadata` pair on a local source. -/
def local_fetch (src : LocalImageSource) (fs : LocalFile) (maxSize : Nat) :
    LocalImageSource × Except String (List Nat × SourceMeta) :=
  let (s1, r) := src.download fs maxSize
  match r with
  | .error e => (s1, .error e)
  | .ok bs =>
    match s1.get_metadata with
    | .error e => (s1, .error e)
    | .ok md => (s1, .ok (bs, md))

/-- Shared body of `ResourceManager.add_image_from_url` and
`add_image_from_path` (the two methods are textually identical): given the
outcome of the provider fetch, a fresh UUID and the current time, allocate the
id, write the cache file, and insert the record. A failed fetch propagates
before any record or cache file is created. -/
def add_image (m : ResourceManager) (fetched : Except String (List Nat × SourceMeta))
    (freshUuid now : String) : ResourceManager × Except String String :=
  match fetched with
  | .error e => (m, .error e)
  | .ok (image_data, md) =>
    let resource_id := "image-" ++ freshUuid
    let cache_path := m.cache_dir ++ "/" ++ resource_id ++ ".data"
    let record : ResourceRecord :=
      ⟨resource_id, md.content_type, md.uri, md.size, now, cache_path,
       false, none, none, none, none⟩
    ({ m with cache_files := m.cache_files ++ [(cache_path, image_data)],
              resources := m.resources ++ [(resource_id, record)] },
     .ok resource_id)

/-- `add_image_from_url` composed with the web source selected by
`ImageSourceFactory` for an `http(s)://` URI. -/
def add_image_from_url (m : ResourceManager) (src : WebImageSource) (net : HttpOutcome)
    (maxSize : Nat) (freshUuid now : String) : ResourceManager × Except String String :=
  add_image m (web_fetch src net maxSize now).2 freshUuid now

/-- `add_image_from_path` composed with the local source selected by
`ImageSourceFactory` for a local path. -/
def add_image_from_path (m : ResourceManager) (src : LocalImageSource) (fs : LocalFile)
    (maxSize : Nat) (freshUuid now : String) : ResourceManager × Except String String :=
  add_image m (local_fetch src fs maxSize).2 freshUuid now

/-- Extractor tags accepted by `TextExtractorFactory.create_extractor`
(`factories.py`): anything else raises `Unsupported text extractor`. -/
def extractorTypeSupported (t : String) : Bool := t == "tesseract" || t == "azure"

/-- `ResourceManager.extract_text_from_image` (`resource_manager.py`).
The extractor run (its `extract_text` call followed by
`get_confidence_score`) enters as `ext`: `.ok (text, confidence)` when the
provider returns, `.error e` when it raises. Source order: id lookup, cache
file read, factory creation, then the guarded extraction. On provider
failure the record is still rewritten (flag set, failure message stored as
text, confidence zeroed, time and extractor kind recorded) before the
wrapped error is raised. -/
def extract_text_from_image (m : ResourceManager) (resource_id extractor_type : String)
    (ext : Except String (String × Rat)) (now : String) :
    ResourceManager × Except String (String × String × Rat) :=
  match alookup m.resources resource_id with
  | none => (m, .error ("Resource not found: " ++ resource_id))
  | some resource =>
    match alookup m.cache_files resource.cache_path with
    | none => (m, .error ("No such file or directory: " ++ resource.cache_path))
    | some _image_data =>
      if !extractorTypeSupported extractor_type then
        (m, .error ("Unsupported text extractor: " ++ extractor_type))
      else
        match ext with
        | .ok (text, conf) =>
          let r1 := { resource with
            text_extracted := true,
            extracted_text := some text,
            confidence_score := some conf,
            text_extraction_time := some now,
            text_extractor := some extractor_type }
          ({ m with resources := aupdate m.resources resource_id r1 },
           .ok (resource_id, text, conf))
        | .error e =>
          let r1 := { resource with
            text_extracted := true,
            extracted_text := some ("Text extraction failed: " ++ e),
            confidence_score := some 0,
            text_extraction_time := some now,
            text_extractor := some extractor_type }
          ({ m with resources := aupdate m.resources resource_id r1 },
           .error ("Failed to extract text: " ++ e))

/-- One entry of the protocol resource listing (`mcp.types.Resource`). -/
structure McpResource where
  uri : String
  name : String
  description : String
  mimeType : String
  deriving DecidableEq, Repr

/-- `ResourceManager.list_resources`: one listing entry per record in
insertion order, with the `mcp:///resource/` URI, a description derived from
the extraction flag, and the mime type switching to `text/plain` once text
was extracted. -/
def list_resources (m : ResourceManager) : List McpResource :=
  m.resources.map (fun p =>
    ⟨"mcp:///resource/" ++ p.1, p.1,
     (if !p.2.text_extracted then "Image" else "Extracted Text") ++ " - " ++ p.2.uri,
     if !p.2.text_extracted then p.2.rtype else "text/plain"⟩)

/-- Result of reading a resource: `mcp.types.TextResourceContents` or
`mcp.types.BlobResourceContents`. -/
inductive ResourceContents
  | textRC (uri mimeType text : String)
  | blobRC (uri mimeType blob : String)
  deriving DecidableEq, Repr

/-- `ResourceManager.get_resource_content`: unknown ids raise; a record whose
extraction flag is set and whose stored text is truthy yields the text as a
`text/plain` payload; otherwise the cached bytes are read back and returned
base64-encoded under the record's content type. -/
def get_resource_content (m : ResourceManager) (resource_id : String) :
    Except String ResourceContents :=
  match alookup m.resources resource_id with
  | none => .error ("Resource not found: " ++ resource_id)
  | some resource =>
    let uri := "mcp:///resource/" ++ resource_id
    if resource.text_extracted && strTruthy resource.extracted_text then
      .ok (.textRC uri "text/plain" (resource.extracted_text.getD ""))
    else
      match alookup m.cache_files resource.cache_path with
      | none => .error ("No such file or directory: " ++ resource.cache_path)
      | some image_data => .ok (.blobRC uri resource.rtype (base64Encode image_data))

/-- `ResourceManager.get_extracted_text`: unknown ids raise; a record whose
flag is unset or whose stored text is falsy yields `None`; otherwise the
stored text. -/
def get_extracted_text (m : ResourceManager) (resource_id : String) :
    Except String (Option String) :=
  match alookup m.resources resource_id with
  | none => .error ("Resource not found: " ++ resource_id)
  | some resource =>
    if !resource.text_extracted || !strTruthy resource.extracted_text then .ok none
    else .ok resource.extracted_text

/-- Python's `t and t.strip()` truthiness test on an extraction result:
true exactly when the text is non-empty and not whitespace-only. -/
def stripNonempty (t : String) : Bool := t ≠ "" && pyStrip t ≠ ""

/-- Whether an OCR attempt produced no usable text: it either raised (the
code catches and advances) or returned empty / whitespace-only text. -/
def attemptEmpty : Except String String → Bool
  | .ok t => !stripNonempty t
  | .error _ => true

/-- Mutable state of `TesseractTextExtractor`: the last confidence and text. -/
structure TesseractState where
  last_confidence : Rat
  last_text : String
  deriving DecidableEq, Repr

/-- Behaviour of the OCR engine on one input image: whether the
decode/convert/save pipeline succeeds (with the exception text otherwise),
the default `image_to_string` outcome, the `image_to_data` confidence-column
outcome, and the `image_to_string` outcome for each page-segmentation mode. -/
structure OcrRun where
  decode_ok : Bool
  decode_err : String
  direct : Except String String
  conf_data : Except String (List Rat)
  psm : Nat → Except String String

/-- Page-segmentation fallback order from `TesseractTextExtractor`. -/
def psm_modes : List Nat := [6, 3, 4, 11]

/-- The `for psm_mode in [6, 3, 4, 11]` loop: first mode whose extraction
returns non-empty stripped text wins; exceptions and empty results advance. -/
def psmLoop (f : Nat → Except String String) : List Nat → Option String
  | [] => none
  | mo :: rest =>
    match f mo with
    | .ok t => if stripNonempty t then some t else psmLoop f rest
    | .error _ => psmLoop f rest

/-- Confidence computed from the `image_to_data` outcome after a successful
direct extraction, mirroring the nested try of `extract_text`: a raised
`image_to_data` defaults to 50; a non-empty confidence column takes the mean
of its non-negative entries, or 50 if none are non-negative; an empty column
leaves the previous confidence untouched. -/
def directConfidence (prev : Rat) (confData : Except String (List Rat)) : Rat :=
  match confData with
  | .error _ => 50
  | .ok cs =>
    if cs.length > 0 then
      let vals := cs.filter (fun c => 0 ≤ c)
      if vals ≠ [] then vals.sum / (vals.length : Rat) else 50
    else prev

/-- `TesseractTextExtractor.extract_text` (`implementations.py`): decode and
normalize, attempt default extraction, fall back through the page-segmentation
modes, and finally return the sentinel with confidence 0; a pipeline
exception escaping to the outer handler returns an error-description string
with confidence 0 instead of raising. The function never raises: its result
is always a text. -/
def tesseract_extract (s : TesseractState) (run : OcrRun) : TesseractState × String :=
  if run.decode_ok then
    let directHit : Option (TesseractState × String) :=
      match run.direct with
      | .ok t =>
        if stripNonempty t then
          some ({ last_confidence := directConfidence s.last_confidence run.conf_data,
                  last_text := t }, t)
        else none
      | .error _ => none
    match directHit with
    | some r => r
    | none =>
      match psmLoop run.psm psm_modes with
      | some t => ({ last_confidence := 50, last_text := t }, t)
      | none =>
        ({ last_confidence := 0, last_text := "No readable text found in the image." },
         "No readable text found in the image.")
  else
    ({ last_confidence := 0, last_text := "Error extracting text: " ++ run.decode_err },
     "Error extracting text: " ++ run.decode_err)

/-- Items returned by the tool dispatcher (`mcp.types.TextContent` or an
`mcp.types.EmbeddedResource` wrapping a `TextResourceContents`). -/
inductive Content
  | text (s : String)
  | embedded (uri mimeType txt : String)
  deriving DecidableEq, Repr

/-- The `useTextAsContext` branch of `server.py`'s `call_tool` handler, after
the required-argument check: read the stored text; when it is falsy, attempt
a lazy extraction with the default extractor, substituting the fixed
placeholder sentence when that raises; any error escaping the outer try (an
unknown id) is converted into an embedded generic error description. The
lazy extraction's store mutation survives either way. -/
def useTextAsContext (m : ResourceManager) (resource_id : String)
    (ext : Except String (String × Rat)) (now : String) : ResourceManager × List Content :=
  match get_extracted_text m resource_id with
  | .error e =>
    (m, [Content.embedded "mcp:///resource/error" "text/plain"
          ("Error retrieving text from the resource: " ++ e)])
  | .ok stored =>
    if stored.getD "" = "" then
      let (m1, r) := extract_text_from_image m resource_id "tesseract" ext now
      let text := match r with
        | .ok p => p.2.1
        | .error _ =>
          "Unable to extract text from this image. Please ensure the image contains readable text."
      (m1, [Content.embedded ("mcp:///resource/" ++ resource_id) "text/plain" text])
    else
      (m, [Content.embedded ("mcp:///resource/" ++ resource_id) "text/plain" (stored.getD "")])

/-- The `call_tool` handler of `server.py`: dispatch on the tool name, check
the required argument, run the store operation, and either shape the success
message or re-raise the failure wrapped in the tool-specific prefix.
`fetched` is the provider outcome consumed by the ingestion tools and `ext`
the extractor outcome consumed by the extraction tools. -/
def call_tool (m : ResourceManager) (name : String) (arguments : List (String × String))
    (fetched : Except String (List Nat × SourceMeta))
    (ext : Except String (String × Rat)) (freshUuid now : String) :
    ResourceManager × Except String (List Content) :=
  if name = "downloadImageFromUrl" then
    if (alookup arguments "url").isNone then
      (m, .error "Missing required argument \x27url\x27")
    else
      let (m1, r) := add_image m fetched freshUuid now
      match r with
      | .ok rid => (m1, .ok [Content.text ("Image downloaded successfully. Resource ID: " ++ rid)])
      | .error e => (m1, .error ("Failed to download image: " ++ e))
  else if name = "loadImageFromPath" then
    if (alookup arguments "path").isNone then
      (m, .error "Missing required argument \x27path\x27")
    else
      let (m1, r) := add_image m fetched freshUuid now
      match r with
      | .ok rid => (m1, .ok [Content.text ("Image loaded successfully. Resource ID: " ++ rid)])
      | .error e => (m1, .error ("Failed to load image: " ++ e))
  else if name = "extractTextFromImage" then
    if (alookup arguments "resource_id").isNone then
      (m, .error "Missing required argument \x27resource_id\x27")
    else
      let extractor := (alookup arguments "extractor").getD "tesseract"
      let rid := (alookup arguments "resource_id").getD ""
      let (m1, r) := extract_text_from_image m rid extractor ext now
      match r with
      | .ok p =>
        (m1, .ok [Content.text ("Text extracted successfully with confidence " ++
          fmt2 p.2.2 ++ "%.\n\nExtracted text:\n" ++ p.2.1)])
      | .error e => (m1, .error ("Failed to extract text: " ++ e))
  else if name = "useTextAsContext" then
    if (alookup arguments "resource_id").isNone then
      (m, .error "Missing required argument \x27resource_id\x27")
    else
      let rid := (alookup arguments "resource_id").getD ""
      let (m1, cs) := useTextAsContext m rid ext now
      (m1, .ok cs)
  else
    (m, .error ("Unknown tool: " ++ name))

/-- Response envelope of a protocol tool call: a successful response that
either carries the handler's content or flags an error with its text as the
payload. -/
structure ToolCallEnvelope where
  isError : Bool
  content : List Content
  deriving DecidableEq, Repr

/-- Modelled from the spec: the protocol dispatcher's tool-call surface
(the SDK-side wrapper installed by `Server.call_tool()`, which is not under
`src/`) catches any failure raised by the registered handler and converts it
into a successful response envelope whose payload is the human-readable
error description; the protocol call itself never fails outwardly. -/
def call_tool_wrapped (m : ResourceManager) (name : String)
    (arguments : List (String × String)) (fetched : Except String (List Nat × SourceMeta))
    (ext : Except String (String × Rat)) (freshUuid now : String) :
    ResourceManager × ToolCallEnvelope :=
  match call_tool m name arguments fetched ext freshUuid now with
  | (m1, .ok cs) => (m1, ⟨false, cs⟩)
  | (m1, .error e) => (m1, ⟨true, [Content.text e]⟩)

/-- One role-tagged message of a generated prompt (`mcp.types.PromptMessage`
with a `TextContent` body). -/
structure PromptMessage where
  role : String
  text : String
  deriving DecidableEq, Repr

/-- Result of a prompt-get operation (`mcp.types.GetPromptResult`). -/
structure GetPromptResult where
  description : String
  messages : List PromptMessage
  deriving DecidableEq, Repr

/-- `AnalyzeImagePrompt.generate_prompt` (`implementations.py`); the metadata
dictionary is accepted but unused. -/
def analyzeImagePrompt (extracted_text : String) (_metadata : List (String × String)) :
    GetPromptResult :=
  ⟨"Analyze the content of an image based on extracted text",
   [⟨"user", "I have an image with the following extracted text. " ++
      "Please analyze and explain what this image might contain or represent:\n\n" ++
      extracted_text⟩]⟩

/-- `ExtractInformationPrompt.generate_prompt`: reads `information_type`
from the metadata, defaulting to `general`. -/
def extractInformationPrompt (extracted_text : String) (metadata : List (String × String)) :
    GetPromptResult :=
  let info_type := (alookup metadata "information_type").getD "general"
  ⟨"Extract " ++ info_type ++ " information from image text",
   [⟨"user", "I have an image with the following extracted text. " ++
      "Please extract " ++ info_type ++ " information from it:\n\n" ++ extracted_text⟩]⟩

/-- `SummarizeImageTextPrompt.generate_prompt`: reads `length` from the
metadata, defaulting to `short`. -/
def summarizeImageTextPrompt (extracted_text : String) (metadata : List (String × String)) :
    GetPromptResult :=
  let len := (alookup metadata "length").getD "short"
  ⟨"Summarize the text extracted from an image",
   [⟨"user", "I have an image with the following extracted text. " ++
      "Please provide a " ++ len ++ " summary of it:\n\n" ++ extracted_text⟩]⟩

/-- The text-fetch phase shared by every prompt in `server.py`'s `get_prompt`
handler (run before the per-prompt dispatch): read the stored text; when it
is falsy, lazily extract with the default extractor, substituting the fixed
placeholder sentence if that raises; any error escaping the outer try (an
unknown id) substitutes a generic error sentence without touching the store. -/
def fetch_text_phase (m : ResourceManager) (resource_id : String)
    (ext : Except String (String × Rat)) (now : String) : ResourceManager × String :=
  match get_extracted_text m resource_id with
  | .error _ => (m, "Error retrieving text from the resource.")
  | .ok stored =>
    if stored.getD "" = "" then
      let (m1, r) := extract_text_from_image m resource_id "tesseract" ext now
      match r with
      | .ok p => (m1, p.2.1)
      | .error _ =>
        (m1, "Unable to extract text from this image. Please ensure the image contains readable text.")
    else
      (m, stored.getD "")

/-- The `get_prompt` handler of `server.py`: reject absent or empty argument
dictionaries and a missing `resource_id`; then run the text-fetch phase; then
dispatch on the prompt name, where `extractInformation` additionally requires
`information_type` — a check performed only after the fetch phase has run. -/
def get_prompt (m : ResourceManager) (name : String)
    (arguments : Option (List (String × String)))
    (ext : Except String (String × Rat)) (now : String) :
    ResourceManager × Except String GetPromptResult :=
  match arguments with
  | none => (m, .error "Missing required arguments")
  | some args =>
    if args.isEmpty then (m, .error "Missing required arguments")
    else if (alookup args "resource_id").isNone then
      (m, .error "Missing required argument \x27resource_id\x27")
    else
      let rid := (alookup args "resource_id").getD ""
      let (m1, extracted_text) := fetch_text_phase m rid ext now
      if name = "analyzeImageContent" then
        (m1, .ok (analyzeImagePrompt extracted_text
          [("analysis_type", (alookup args "analysis_type").getD "general")]))
      else if name = "extractInformation" then
        match alookup args "information_type" with
        | none => (m1, .error "Missing required argument \x27information_type\x27")
        | some it =>
          (m1, .ok (extractInformationPrompt extracted_text [("information_type", it)]))
      else if name = "summarizeImageText" then
        (m1, .ok (summarizeImageTextPrompt extracted_text
          [("length", (alookup args "length").getD "short")]))
      else
        (m1, .error ("Unknown prompt: " ++ name))

/-- The id extracted from a resource URI by `read_resource`:
Python's `uri.split("mcp:///resource/")[1]`. -/
def uriResourceId (uri : String) : String := (pySplit uri "mcp:///resource/").getD 1 ""

/-- The `read_resource` handler of `server.py`: reject URIs that do not start
with `mcp:///resource/`, take the segment after the first separator
occurrence as the id, and wrap any store failure in a descriptive message. -/
def read_resource (m : ResourceManager) (uri : String) : Except String ResourceContents :=
  if !pyStartsWith uri "mcp:///resource/" then
    .error ("Invalid resource URI format: " ++ uri)
  else
    match get_resource_content m (uriResourceId uri) with
    | .ok c => .ok c
    | .error e => .error ("Failed to read resource: " ++ e)

theorem alookup_aupdate {α : Type} (l : List (String × α)) (k : String) (v : α)
    (h : (alookup l k).isSome) : alookup (aupdate l k v) k = some v := by
  induction l with
  | nil => simp [alookup] at h
  | cons p rest ih =>
    by_cases hk : (p.1 == k) = true
    · have hhead : ((if p.1 == k then (k, v) else p) : String × α) = (k, v) := if_pos hk
      simp only [aupdate, List.map_cons, hhead, alookup]
      rw [List.find?_cons_of_pos _ (by simp)]
      rfl
    · have hhead : ((if p.1 == k then (k, v) else p) : String × α) = p := if_neg hk
      have hh : (alookup rest k).isSome := by
        have heq : alookup (p :: rest) k = alookup rest k := by
          simp only [alookup]
          rw [List.find?_cons_of_neg _ (by simpa using hk)]
        rwa [heq] at h
      have hres := ih hh
      simp only [aupdate, List.map_cons, hhead, alookup]
      rw [List.find?_cons_of_neg _ (by simpa using hk)]
      exact hres

theorem psmLoop_none (f : Nat → Except String String) (l : List Nat)
    (h : ∀ mo ∈ l, attemptEmpty (f mo) = true) : psmLoop f l = none := by
  induction l with
  | nil => rfl
  | cons mo rest ih =>
    have hm := h mo (by simp)
    have hrest := ih fun x hx => h x (by simp [hx])
    cases hf : f mo with
    | ok t =>
      rw [hf] at hm
      simp only [attemptEmpty, Bool.not_eq_true'] at hm
      simp [psmLoop, hf, hm, hrest]
    | error e => simp [psmLoop, hf, hrest]

/-- C10: on the network image source, a download failing the size check has
already stored the fetched body in `self.data`; a second `download()` on the
same instance returns those oversized bytes with no content-type or size
check, while `get_metadata()` still raises because `_metadata` was never
assigned. -/
theorem web_download_caches_oversized_bytes (s : WebImageSource)
    (statusMsg ctype : String) (content : List Nat) (maxSize : Nat) (now : String)
    (hdata : s.data = none) (hmeta : s.meta = none)
    (hct : SUPPORTED_FORMATS.contains ctype = true)
    (hsize : content.length > maxSize) :
    (s.download (.response true statusMsg ctype content) maxSize now).2 =
      .error ("Image too large: " ++ toString content.length ++ " bytes") ∧
    (s.download (.response true statusMsg ctype content) maxSize now).1.data = some content ∧
    (∀ net maxSize2 now2,
      ((s.download (.response true statusMsg ctype content) maxSize now).1.download
          net maxSize2 now2) =
        ((s.download (.response true statusMsg ctype content) maxSize now).1, .ok content)) ∧
    (s.download (.response true statusMsg ctype content) maxSize now).1.get_metadata =
      .error "Image not yet downloaded" := by
  have hne : content ≠ [] := by
    intro hnil
    rw [hnil] at hsize
    simp at hsize
  have hmem : ctype ∈ SUPPORTED_FORMATS := by simpa using hct
  have hstep : s.download (.response true statusMsg ctype content) maxSize now =
      ({ s with content_type := some ctype, data := some content },
       .error ("Image too large: " ++ toString content.length ++ " bytes")) := by
    simp [WebImageSource.download, hdata, bytesTruthy, hmem, hsize]
  refine ⟨by rw [hstep], by rw [hstep], ?_, ?_⟩
  · intro net maxSize2 now2
    rw [hstep]
    simp [WebImageSource.download, bytesTruthy, List.isEmpty_iff, hne]
  · rw [hstep]
    simp [WebImageSource.get_metadata, hmeta]

/-- C4: any provider-level ingestion failure (from either source variant)
propagates before record creation — the store's index and the cache
directory are exactly as before, and no resource id is returned. -/
theorem ingest_failure_creates_nothing (m : ResourceManager)
    (src : WebImageSource) (lsrc : LocalImageSource) (net : HttpOutcome) (fs : LocalFile)
    (maxSize : Nat) (freshUuid now : String) (e1 e2 : String)
    (hweb : (src.download net maxSize now).2 = .error e1)
    (hloc : (lsrc.download fs maxSize).2 = .error e2) :
    add_image_from_url m src net maxSize freshUuid now = (m, .error e1) ∧
    add_image_from_path m lsrc fs maxSize freshUuid now = (m, .error e2) := by
  constructor
  · rcases hd : src.download net maxSize now with ⟨s1, r⟩
    rw [hd] at hweb
    simp only at hweb
    subst hweb
    simp [add_image_from_url, web_fetch, add_image, hd]
  · rcases hd : lsrc.download fs maxSize with ⟨s1, r⟩
    rw [hd] at hloc
    simp only at hloc
    subst hloc
    simp [add_image_from_path, local_fetch, add_image, hd]

/-- C2: when the invoked extraction provider raises on a resource known to
the store (with its cache file present and a supported extractor tag), the
record is rewritten before the failure is signalled — flag set, descriptive
failure message stored as the text, confidence zeroed, extraction time and
extractor kind recorded — and the wrapped failure is re-raised, so the
updated record is visible through the erroring call. -/
theorem extract_provider_failure_records_and_reraises (m : ResourceManager)
    (resource_id extractor_type e now : String) (r : ResourceRecord) (bs : List Nat)
    (hr : alookup m.resources resource_id = some r)
    (hc : alookup m.cache_files r.cache_path = some bs)
    (hty : extractorTypeSupported extractor_type = true) :
    (extract_text_from_image m resource_id extractor_type (.error e) now).2 =
      .error ("Failed to extract text: " ++ e) ∧
    alookup (extract_text_from_image m resource_id extractor_type (.error e) now).1.resources
        resource_id =
      some { r with text_extracted := true,
                    extracted_text := some ("Text extraction failed: " ++ e),
                    confidence_score := some 0,
                    text_extraction_time := some now,
                    text_extractor := some extractor_type } := by
  constructor
  · simp [extract_text_from_image, hr, hc, hty]
  · simp only [extract_text_from_image, hr, hc, hty, Bool.not_true, Bool.false_eq_true, if_false]
    exact alookup_aupdate _ _ _ (by simp [hr])

/-- C6: reading a known resource's content yields the stored text as a
`text/plain` text payload exactly when the extraction flag is set and the
text is non-empty; otherwise it yields the cached bytes base64-encoded as a
binary payload under the record's content type. -/
theorem read_content_text_or_blob (m : ResourceManager) (resource_id : String)
    (r : ResourceRecord) (hr : alookup m.resources resource_id = some r) :
    ((r.text_extracted && strTruthy r.extracted_text) = true →
      get_resource_content m resource_id =
        .ok (.textRC ("mcp:///resource/" ++ resource_id) "text/plain"
              (r.extracted_text.getD ""))) ∧
    ((r.text_extracted && strTruthy r.extracted_text) = false →
      ∀ bs, alookup m.cache_files r.cache_path = some bs →
        get_resource_content m resource_id =
          .ok (.blobRC ("mcp:///resource/" ++ resource_id) r.rtype (base64Encode bs))) := by
  constructor
  · intro h
    simp [get_resource_content, hr, h]
  · intro h bs hbs
    simp [get_resource_content, hr, h, hbs]

/-- C5: when the default attempt and every page-segmentation fallback of the
local OCR extractor produce no usable text, `extract_text` returns (it does
not raise — its result type is a plain text) the non-empty sentinel string
with confidence 0. -/
theorem ocr_all_strategies_empty_returns_sentinel (s : TesseractState) (run : OcrRun)
    (hdec : run.decode_ok = true)
    (hdirect : attemptEmpty run.direct = true)
    (hpsm : ∀ mo ∈ psm_modes, attemptEmpty (run.psm mo) = true) :
    tesseract_extract s run =
      (⟨0, "No readable text found in the image."⟩, "No readable text found in the image.") ∧
    "No readable text found in the image." ≠ "" := by
  refine ⟨?_, by decide⟩
  have hloop := psmLoop_none run.psm psm_modes hpsm
  cases hf : run.direct with
  | ok t =>
    rw [hf] at hdirect
    simp only [attemptEmpty, Bool.not_eq_true'] at hdirect
    simp [tesseract_extract, hdec, hf, hdirect, hloop]
  | error e =>
    simp [tesseract_extract, hdec, hf, hloop]

/-- C3: `useTextAsContext` never raises, whatever the resource id: it always
returns exactly one embedded text payload — the stored text when available,
the lazily extracted text otherwise, the fixed placeholder sentence when that
extraction fails, and a generic error description for a nonexistent id. -/
theorem use_as_context_always_embeds (m : ResourceManager) (resource_id : String)
    (ext : Except String (String × Rat)) (now : String) :
    (∃ uri t, (useTextAsContext m resource_id ext now).2 =
        [Content.embedded uri "text/plain" t]) ∧
    (alookup m.resources resource_id = none →
      (useTextAsContext m resource_id ext now).2 =
        [Content.embedded "mcp:///resource/error" "text/plain"
          ("Error retrieving text from the resource: " ++
            ("Resource not found: " ++ resource_id))]) ∧
    (∀ r t, alookup m.resources resource_id = some r → r.text_extracted = true →
      r.extracted_text = some t → t ≠ "" →
      (useTextAsContext m resource_id ext now).2 =
        [Content.embedded ("mcp:///resource/" ++ resource_id) "text/plain" t]) ∧
    (∀ r, alookup m.resources resource_id = some r →
      (r.text_extracted = false ∨ r.extracted_text.getD "" = "") →
      (useTextAsContext m resource_id ext now).2 =
        [Content.embedded ("mcp:///resource/" ++ resource_id) "text/plain"
          (match (extract_text_from_image m resource_id "tesseract" ext now).2 with
           | .ok p => p.2.1
           | .error _ =>
             "Unable to extract text from this image. Please ensure the image contains readable text.")]) := by
  refine ⟨?_, ?_, ?_, ?_⟩
  · cases hg : get_extracted_text m resource_id with
    | error e =>
      exact ⟨"mcp:///resource/error", "Error retrieving text from the resource: " ++ e,
        by simp [useTextAsContext, hg]⟩
    | ok stored =>
      by_cases hs : stored.getD "" = ""
      · cases he : extract_text_from_image m resource_id "tesseract" ext now with
        | mk m1 r =>
          cases r with
          | ok p =>
            exact ⟨"mcp:///resource/" ++ resource_id, p.2.1,
              by simp [useTextAsContext, hg, hs, he]⟩
          | error e2 =>
            exact ⟨"mcp:///resource/" ++ resource_id,
              "Unable to extract text from this image. Please ensure the image contains readable text.",
              by simp [useTextAsContext, hg, hs, he]⟩
      · exact ⟨"mcp:///resource/" ++ resource_id, stored.getD "",
          by simp [useTextAsContext, hg, hs]⟩
  · intro h
    have hg : get_extracted_text m resource_id =
        .error ("Resource not found: " ++ resource_id) := by
      simp [get_extracted_text, h]
    simp [useTextAsContext, hg]
  · intro r t hr hx ht hne
    have hg : get_extracted_text m resource_id = .ok (some t) := by
      simp [get_extracted_text, hr, hx, ht, strTruthy, hne]
    simp [useTextAsContext, hg, hne]
  · intro r hr hcase
    have hg : get_extracted_text m resource_id = .ok none := by
      rcases hcase with hx | hx
      · simp [get_extracted_text, hr, hx]
      · cases het : r.extracted_text with
        | none => simp [get_extracted_text, hr, het, strTruthy]
        | some t =>
          rw [het] at hx
          simp only [Option.getD_some] at hx
          subst hx
          simp [get_extracted_text, hr, het, strTruthy]
    cases he : extract_text_from_image m resource_id "tesseract" ext now with
    | mk m1 rr =>
      cases rr with
      | ok p => simp [useTextAsContext, hg, he]
      | error e => simp [useTextAsContext, hg, he]

/-- C1: any provider or store failure under a tool call surfaces as a
successful response envelope whose payload is the human-readable error text:
the three raising handlers are converted by the dispatcher's wrapper, and
`useTextAsContext` embeds the error description while its envelope is not
even flagged. -/
theorem tool_failures_yield_error_envelopes :
    (∀ (m : ResourceManager) (args : List (String × String))
        (ext : Except String (String × Rat)) (freshUuid now e : String),
      (alookup args "url").isSome = true →
      (call_tool_wrapped m "downloadImageFromUrl" args (.error e) ext freshUuid now).2 =
        ⟨true, [Content.text ("Failed to download image: " ++ e)]⟩) ∧
    (∀ (m : ResourceManager) (args : List (String × String))
        (ext : Except String (String × Rat)) (freshUuid now e : String),
      (alookup args "path").isSome = true →
      (call_tool_wrapped m "loadImageFromPath" args (.error e) ext freshUuid now).2 =
        ⟨true, [Content.text ("Failed to load image: " ++ e)]⟩) ∧
    (∀ (m : ResourceManager) (args : List (String × String))
        (fetched : Except String (List Nat × SourceMeta))
        (ext : Except String (String × Rat)) (freshUuid now rid e : String),
      alookup args "resource_id" = some rid →
      (extract_text_from_image m rid ((alookup args "extractor").getD "tesseract") ext now).2 =
        .error e →
      (call_tool_wrapped m "extractTextFromImage" args fetched ext freshUuid now).2 =
        ⟨true, [Content.text ("Failed to extract text: " ++ e)]⟩) ∧
    (∀ (m : ResourceManager) (args : List (String × String))
        (fetched : Except String (List Nat × SourceMeta))
        (ext : Except String (String × Rat)) (freshUuid now rid : String),
      alookup args "resource_id" = some rid →
      alookup m.resources rid = none →
      (call_tool_wrapped m "useTextAsContext" args fetched ext freshUuid now).2 =
        ⟨false, [Content.embedded "mcp:///resource/error" "text/plain"
          ("Error retrieving text from the resource: " ++
            ("Resource not found: " ++ rid))]⟩) := by
  refine ⟨?_, ?_, ?_, ?_⟩
  · intro m args ext freshUuid now e h
    obtain ⟨v, hv⟩ := Option.isSome_iff_exists.mp h
    simp [call_tool_wrapped, call_tool, add_image, hv]
  · intro m args ext freshUuid now e h
    obtain ⟨v, hv⟩ := Option.isSome_iff_exists.mp h
    simp [call_tool_wrapped, call_tool, add_image, hv]
  · intro m args fetched ext freshUuid now rid e hrid hfail
    cases he : extract_text_from_image m rid ((alookup args "extractor").getD "tesseract") ext now with
    | mk m1 r =>
      rw [he] at hfail
      have hr : r = .error e := hfail
      subst hr
      simp [call_tool_wrapped, call_tool, hrid, he]
  · intro m args fetched ext freshUuid now rid hrid hnone
    have hg : get_extracted_text m rid = .error ("Resource not found: " ++ rid) := by
      simp [get_extracted_text, hnone]
    simp [call_tool_wrapped, call_tool, useTextAsContext, hrid, hg]

/-- Store with no resources, used as a concrete evaluation point. -/
def emptyStore : ResourceManager := ⟨"./.image_cache", [], []⟩

/-- A concrete not-yet-extracted record. -/
def wRecord : ResourceRecord :=
  ⟨"image-w", "image/png", "http://example.com/x.png", 3, "t0",
   "./.image_cache/image-w.data", false, none, none, none, none⟩

/-- Store holding `wRecord` together with its cache file. -/
def wStore : ResourceManager :=
  ⟨"./.image_cache", [("image-w", wRecord)], [("./.image_cache/image-w.data", [1, 2, 3])]⟩

/-- A concrete record whose text has been extracted. -/
def wRecordT : ResourceRecord :=
  ⟨"image-t", "image/jpeg", "http://example.com/y.jpg", 3, "t0",
   "./.image_cache/image-t.data", true, some "hello", some 80, some "t1", some "tesseract"⟩

/-- Store holding the extracted record `wRecordT` and its cache file. -/
def wStoreT : ResourceManager :=
  ⟨"./.image_cache", [("image-t", wRecordT)], [("./.image_cache/image-t.data", [9, 8, 7])]⟩

/-- The URI carried by a resource-read payload. -/
def contentsUri : ResourceContents → String
  | .textRC uri _ _ => uri
  | .blobRC uri _ _ => uri

/-- C7 fails on the code: the protocol boundary does not use the
`resource:///{id}` scheme — listing a concrete store produces an
`mcp:///resource/` URI, which differs from the claimed form, and the read
operation rejects a `resource:///` URI as malformed. -/
theorem resource_uri_scheme_counterexample :
    (list_resources wStore).map (fun r => r.uri) = ["mcp:///resource/" ++ "image-w"] ∧
    "mcp:///resource/" ++ "image-w" ≠ "resource:///" ++ "image-w" ∧
    read_resource wStore "resource:///image-w" =
      .error ("Invalid resource URI format: " ++ "resource:///image-w") :=
  ⟨rfl, by decide, rfl⟩

/-- C7 amended: every resource exposed at the protocol boundary is addressed
as `mcp:///resource/{id}` (not `resource:///{id}`): listing URIs, the URIs
embedded in read payloads, and the URIs the read operation accepts — any URI
not starting with `mcp:///resource/` is rejected, and an accepted URI routes
the suffix to the store lookup. -/
theorem resource_uris_use_mcp_scheme (m : ResourceManager) :
    (∀ entry ∈ list_resources m, ∃ rid, entry.uri = "mcp:///resource/" ++ rid ∧
      entry.name = rid) ∧
    (∀ rid r, alookup m.resources rid = some r →
      ∀ c, get_resource_content m rid = .ok c → contentsUri c = "mcp:///resource/" ++ rid) ∧
    (∀ uri, pyStartsWith uri "mcp:///resource/" = false →
      read_resource m uri = .error ("Invalid resource URI format: " ++ uri)) ∧
    (read_resource wStore "mcp:///resource/image-w" = get_resource_content wStore "image-w") := by
  refine ⟨?_, ?_, ?_, rfl⟩
  · intro entry hentry
    simp only [list_resources, List.mem_map] at hentry
    obtain ⟨p, hp, hpe⟩ := hentry
    exact ⟨p.1, by rw [← hpe], by rw [← hpe]⟩
  · intro rid r hr c hc
    by_cases hx : (r.text_extracted && strTruthy r.extracted_text) = true
    · simp only [get_resource_content, hr, hx, if_true] at hc
      cases hc
      rfl
    · rw [Bool.not_eq_true] at hx
      simp only [get_resource_content, hr, hx, Bool.false_eq_true, if_false] at hc
      cases hcf : alookup m.cache_files r.cache_path with
      | none => rw [hcf] at hc; cases hc
      | some bs =>
        rw [hcf] at hc
        cases hc
        rfl
  · intro uri huri
    simp [read_resource, huri]

/-- C8 fails on the code: a prompt-get for a nonexistent resource id does not
fail — the handler swallows the store error and successfully generates the
prompt around a placeholder error sentence. -/
theorem prompt_get_unknown_id_counterexample :
    (get_prompt emptyStore "analyzeImageContent" (some [("resource_id", "nope")])
        (.error "x") "t").2 =
      .ok (analyzeImagePrompt "Error retrieving text from the resource."
            [("analysis_type", "general")]) ∧
    (get_prompt emptyStore "analyzeImageContent" (some [("resource_id", "nope")])
        (.error "x") "t").1 = emptyStore :=
  ⟨rfl, rfl⟩

/-- C8 amended: resource-read failures (malformed URI, unknown id) propagate
as protocol-level errors with descriptive messages, and prompt-get fails for
an absent argument dictionary, a missing `resource_id`, and an unknown prompt
name; but a prompt-get for a nonexistent resource id succeeds, generating the
prompt around a placeholder error sentence instead of failing. -/
theorem read_and_prompt_error_policy :
    (∀ (m : ResourceManager) (uri : String), pyStartsWith uri "mcp:///resource/" = false →
      read_resource m uri = .error ("Invalid resource URI format: " ++ uri)) ∧
    (∀ (m : ResourceManager) (uri : String), pyStartsWith uri "mcp:///resource/" = true →
      alookup m.resources (uriResourceId uri) = none →
      read_resource m uri = .error ("Failed to read resource: " ++
        ("Resource not found: " ++ uriResourceId uri))) ∧
    (∀ (m : ResourceManager) (name : String) (ext : Except String (String × Rat)) (now : String),
      get_prompt m name none ext now = (m, .error "Missing required arguments")) ∧
    (∀ (m : ResourceManager) (name : String) (args : List (String × String))
        (ext : Except String (String × Rat)) (now : String),
      args ≠ [] → alookup args "resource_id" = none →
      get_prompt m name (some args) ext now =
        (m, .error "Missing required argument \x27resource_id\x27")) ∧
    (∀ (m : ResourceManager) (name : String) (args : List (String × String)) (rid : String)
        (ext : Except String (String × Rat)) (now : String),
      alookup args "resource_id" = some rid →
      name ≠ "analyzeImageContent" → name ≠ "extractInformation" → name ≠ "summarizeImageText" →
      get_prompt m name (some args) ext now =
        ((fetch_text_phase m rid ext now).1, .error ("Unknown prompt: " ++ name))) ∧
    (∀ (m : ResourceManager) (args : List (String × String)) (rid : String)
        (ext : Except String (String × Rat)) (now : String),
      alookup args "resource_id" = some rid → alookup m.resources rid = none →
      get_prompt m "analyzeImageContent" (some args) ext now =
        (m, .ok (analyzeImagePrompt "Error retrieving text from the resource."
              [("analysis_type", (alookup args "analysis_type").getD "general")]))) := by
  refine ⟨?_, ?_, ?_, ?_, ?_, ?_⟩
  · intro m uri huri
    simp [read_resource, huri]
  · intro m uri huri hnone
    simp [read_resource, huri, get_resource_content, hnone]
  · intro m name ext now
    rfl
  · intro m name args ext now hne hnone
    simp [get_prompt, List.isEmpty_iff, hne, hnone]
  · intro m name args rid ext now hrid h1 h2 h3
    have hargs : args ≠ [] := by
      intro hnil
      rw [hnil] at hrid
      simp [alookup] at hrid
    cases hf : fetch_text_phase m rid ext now with
    | mk m1 t => simp [get_prompt, List.isEmpty_iff, hargs, hrid, hf, h1, h2, h3]
  · intro m args rid ext now hrid hnone
    have hargs : args ≠ [] := by
      intro hnil
      rw [hnil] at hrid
      simp [alookup] at hrid
    have hfetch : fetch_text_phase m rid ext now =
        (m, "Error retrieving text from the resource.") := by
      simp [fetch_text_phase, get_extracted_text, hnone]
    simp [get_prompt, List.isEmpty_iff, hargs, hrid, hfetch]

/-- C9 fails on the code: a prompt-get of `extractInformation` without
`information_type` does fail with the missing-argument error, but only after
the text-fetch phase has run — on a not-yet-extracted resource the lazy
extraction is invoked and the record is mutated before the failure. -/
theorem missing_information_type_counterexample :
    (get_prompt wStore "extractInformation" (some [("resource_id", "image-w")])
        (.ok ("hi", 50)) "t1").2 =
      .error "Missing required argument \x27information_type\x27" ∧
    alookup (get_prompt wStore "extractInformation" (some [("resource_id", "image-w")])
        (.ok ("hi", 50)) "t1").1.resources "image-w" =
      some { wRecord with
        text_extracted := true,
        extracted_text := some "hi",
        confidence_score := some 50,
        text_extraction_time := some "t1",
        text_extractor := some "tesseract" } ∧
    wRecord.text_extracted = false ∧
    (get_prompt wStore "extractInformation" (some [("resource_id", "image-w")])
        (.ok ("hi", 50)) "t1").1 ≠ wStore :=
  ⟨rfl, rfl, rfl, by decide⟩

/-- C9 amended: a missing required argument fails with the missing-argument
error; for the tool calls and for a prompt-get's `resource_id` this happens
before any provider runs and the store is unchanged, but for
`extractInformation` the `information_type` check runs only after the
text-fetch phase, whose lazy extraction may already have mutated the store. -/
theorem missing_argument_dispatch :
    (∀ (m : ResourceManager) (args : List (String × String))
        (fetched : Except String (List Nat × SourceMeta))
        (ext : Except String (String × Rat)) (freshUuid now : String),
      alookup args "url" = none →
      call_tool m "downloadImageFromUrl" args fetched ext freshUuid now =
        (m, .error "Missing required argument \x27url\x27")) ∧
    (∀ (m : ResourceManager) (args : List (String × String))
        (fetched : Except String (List Nat × SourceMeta))
        (ext : Except String (String × Rat)) (freshUuid now : String),
      alookup args "path" = none →
      call_tool m "loadImageFromPath" args fetched ext freshUuid now =
        (m, .error "Missing required argument \x27path\x27")) ∧
    (∀ (m : ResourceManager) (args : List (String × String))
        (fetched : Except String (List Nat × SourceMeta))
        (ext : Except String (String × Rat)) (freshUuid now : String),
      alookup args "resource_id" = none →
      call_tool m "extractTextFromImage" args fetched ext freshUuid now =
        (m, .error "Missing required argument \x27resource_id\x27") ∧
      call_tool m "useTextAsContext" args fetched ext freshUuid now =
        (m, .error "Missing required argument \x27resource_id\x27")) ∧
    (∀ (m : ResourceManager) (name : String) (args : List (String × String))
        (ext : Except String (String × Rat)) (now : String),
      args ≠ [] → alookup args "resource_id" = none →
      get_prompt m name (some args) ext now =
        (m, .error "Missing required argument \x27resource_id\x27")) ∧
    (∀ (m : ResourceManager) (args : List (String × String)) (rid : String)
        (ext : Except String (String × Rat)) (now : String),
      alookup args "resource_id" = some rid →
      alookup args "information_type" = none →
      get_prompt m "extractInformation" (some args) ext now =
        ((fetch_text_phase m rid ext now).1,
         .error "Missing required argument \x27information_type\x27")) := by
  refine ⟨?_, ?_, ?_, ?_, ?_⟩
  · intro m args fetched ext freshUuid now h
    simp [call_tool, h]
  · intro m args fetched ext freshUuid now h
    simp [call_tool, h]
  · intro m args fetched ext freshUuid now h
    exact ⟨by simp [call_tool, h], by simp [call_tool, h]⟩
  · intro m name args ext now hne hnone
    simp [get_prompt, List.isEmpty_iff, hne, hnone]
  · intro m args rid ext now hrid hit
    have hargs : args ≠ [] := by
      intro hnil
      rw [hnil] at hrid
      simp [alookup] at hrid
    cases hf : fetch_text_phase m rid ext now with
    | mk m1 t => simp [get_prompt, List.isEmpty_iff, hargs, hrid, hf, hit]

/-- OCR engine behaviour where every attempt yields empty or whitespace-only
text. -/
def wOcrRun : OcrRun := ⟨true, "", .ok " ", .ok [], fun _ => .ok ""⟩

theorem web_download_oversized_witness :
    SUPPORTED_FORMATS.contains "image/png" = true ∧
    ((WebImageSource.create "http://e/x.png").download
        (.response true "" "image/png" [7]) 0 "t").2 =
      .error ("Image too large: " ++ toString ([7] : List Nat).length ++ " bytes") :=
  ⟨by decide, (web_download_caches_oversized_bytes (WebImageSource.create "http://e/x.png")
      "" "image/png" [7] 0 "t" rfl rfl (by decide) (by decide)).1⟩

theorem ingest_failure_witness :
    ((WebImageSource.create "http://e").download (.connError "boom") 10 "t").2 =
      .error "boom" ∧
    add_image_from_url emptyStore (WebImageSource.create "http://e") (.connError "boom")
        10 "u1" "t" = (emptyStore, .error "boom") :=
  ⟨rfl, (ingest_failure_creates_nothing emptyStore (WebImageSource.create "http://e")
      (LocalImageSource.create "/nope") (.connError "boom") ⟨false, none, [], "m"⟩
      10 "u1" "t" "boom" ("Image file not found: " ++ "/nope") rfl rfl).1⟩

theorem extract_failure_witness :
    (extract_text_from_image wStore "image-w" "tesseract" (.error "boom") "t1").2 =
      .error ("Failed to extract text: " ++ "boom") ∧
    alookup (extract_text_from_image wStore "image-w" "tesseract"
        (.error "boom") "t1").1.resources "image-w" =
      some { wRecord with
        text_extracted := true,
        extracted_text := some ("Text extraction failed: " ++ "boom"),
        confidence_score := some 0,
        text_extraction_time := some "t1",
        text_extractor := some "tesseract" } :=
  extract_provider_failure_records_and_reraises wStore "image-w" "tesseract" "boom" "t1"
    wRecord [1, 2, 3] rfl rfl rfl

theorem read_content_witness :
    get_resource_content wStoreT "image-t" =
      .ok (.textRC ("mcp:///resource/" ++ "image-t") "text/plain"
            (wRecordT.extracted_text.getD "")) ∧
    get_resource_content wStore "image-w" =
      .ok (.blobRC ("mcp:///resource/" ++ "image-w") wRecord.rtype (base64Encode [1, 2, 3])) :=
  ⟨(read_content_text_or_blob wStoreT "image-t" wRecordT rfl).1 (by decide),
   (read_content_text_or_blob wStore "image-w" wRecord rfl).2 (by decide) [1, 2, 3] rfl⟩

theorem ocr_sentinel_witness :
    attemptEmpty wOcrRun.direct = true ∧
    tesseract_extract ⟨7, "seed"⟩ wOcrRun =
      (⟨0, "No readable text found in the image."⟩, "No readable text found in the image.") ∧
    "No readable text found in the image." ≠ "" :=
  ⟨by decide, ocr_all_strategies_empty_returns_sentinel ⟨7, "seed"⟩ wOcrRun rfl (by decide)
      (fun _ _ => rfl)⟩

theorem use_as_context_witness :
    (useTextAsContext emptyStore "nope" (.error "x") "t").2 =
      [Content.embedded "mcp:///resource/error" "text/plain"
        ("Error retrieving text from the resource: " ++ ("Resource not found: " ++ "nope"))] :=
  (use_as_context_always_embeds emptyStore "nope" (.error "x") "t").2.1 rfl

theorem tool_envelope_witness :
    (alookup [("url", "http://e")] "url").isSome = true ∧
    (call_tool_wrapped emptyStore "downloadImageFromUrl" [("url", "http://e")]
        (.error "boom") (.error "y") "u1" "t").2 =
      ⟨true, [Content.text ("Failed to download image: " ++ "boom")]⟩ :=
  ⟨rfl, tool_failures_yield_error_envelopes.1 emptyStore [("url", "http://e")]
      (.error "y") "u1" "t" "boom" rfl⟩

theorem resource_uris_mcp_witness :
    pyStartsWith "not-a-uri" "mcp:///resource/" = false ∧
    read_resource wStore "not-a-uri" =
      .error ("Invalid resource URI format: " ++ "not-a-uri") :=
  ⟨rfl, (resource_uris_use_mcp_scheme wStore).2.2.1 "not-a-uri" rfl⟩

theorem error_policy_witness :
    alookup emptyStore.resources (uriResourceId "mcp:///resource/ghost") = none ∧
    read_resource emptyStore "mcp:///resource/ghost" =
      .error ("Failed to read resource: " ++
        ("Resource not found: " ++ uriResourceId "mcp:///resource/ghost")) :=
  ⟨rfl, read_and_prompt_error_policy.2.1 emptyStore "mcp:///resource/ghost" rfl rfl⟩

theorem missing_argument_witness :
    alookup [("resource_id", "image-t")] "information_type" = none ∧
    get_prompt wStoreT "extractInformation" (some [("resource_id", "image-t")])
        (.error "z") "t2" =
      ((fetch_text_phase wStoreT "image-t" (.error "z") "t2").1,
       .error "Missing required argument \x27information_type\x27") :=
  ⟨rfl, missing_argument_dispatch.2.2.2.2 wStoreT [("resource_id", "image-t")] "image-t"
      (.error "z") "t2" rfl rfl⟩
